import Mathlib

/-!
Shallow embedding of the contract-finder agent (`src/app.py`).

Modelling conventions, chosen to mirror Python semantics exactly:

* A message is either user-authored (`HumanMessage`) or assistant-authored
  (`AIMessage`); we embed this as the two-constructor type `Msg`.
* The dialogue state is the Python dict built in `run_contract_finder`.
  Because Python distinguishes a key that is absent from a key that is
  present with value `None`, each optional field is embedded as
  `Option (Option String)`:
  `none` = key absent, `some none` = key present holding `None`,
  `some (some s)` = key present holding the string `s`.
  The interactive loop initialises every field to `some none`.
* `state.get(k, d)` interpolated into an f-string is `pyGetStr`:
  an absent key yields the default, a present `None` renders as the
  string "None" (Python `str(None)`), a present string renders itself.
* Python truthiness of `state.get(k)` (used by `gather_contract_details`,
  `route_to_search` and the extraction guards) is `pyTruthy`: only a
  present, non-empty string is truthy.
* Python `t in s`, `s.split(sep)`, `s.lower()`, `s.strip()` are embedded
  on `List Char` as `firstOcc`/`pyContains`, `pySplit`, `pyLower`,
  `pyStrip`.  `s.lower()` is modelled character-wise (exact on ASCII,
  which covers every keyword the program searches for), and `strip`
  removes the ASCII whitespace characters.
* The external Tavily search tool is a parameter
  `tool : String → Except String (List RawResult)`: given the query it
  either raises (`Except.error`) or returns raw records in which any of
  the keys title/url/content may be absent (`Option String`).
-/

/-- A chat message: either user-authored or assistant-authored
(`HumanMessage` / `AIMessage` in the source). -/
inductive Msg where
  | human (content : String)
  | ai (content : String)
deriving DecidableEq

/-- The dialogue state of `run_contract_finder` (the `ContractState`
TypedDict).  Each scalar field is a Python-dict entry: `none` means the
key is absent, `some none` means the key holds `None`, `some (some s)`
means the key holds the string `s`. -/
structure ContractState where
  messages : List Msg
  industry : Option (Option String)
  contract_type : Option (Option String)
  location : Option (Option String)
  budget_range : Option (Option String)
deriving DecidableEq

/-- The initial state built at the top of `run_contract_finder`: empty
message list, all four scalar keys present and holding `None`. -/
def initialState : ContractState :=
  { messages := [], industry := some none, contract_type := some none,
    location := some none, budget_range := some none }

/-- Example state with the three required fields supplied and the
budget key still holding `None`, exactly as after extraction has filled
the three required fields of the initial state. -/
def exFull : ContractState :=
  { messages := [], industry := some (some "IT"),
    contract_type := some (some "Full-time"),
    location := some (some "Austin"), budget_range := some none }

/-- Variant of `exFull` whose budget key is absent from the mapping. -/
def exFullNoBudgetKey : ContractState :=
  { messages := [], industry := some (some "IT"),
    contract_type := some (some "Full-time"),
    location := some (some "Austin"), budget_range := none }

/-- State in which all four scalar keys are absent from the mapping. -/
def exAllAbsent : ContractState :=
  { messages := [], industry := none, contract_type := none,
    location := none, budget_range := none }

/-- State whose industry is the empty string, the other required fields
supplied, with a user-authored message last. -/
def exEmptyIndustry : ContractState :=
  { messages := [Msg.human "hello"], industry := some (some ""),
    contract_type := some (some "IT"), location := some (some "Austin"),
    budget_range := some none }

/-- The initial state right after the first user message is appended. -/
def exOneUserMsg : ContractState :=
  { initialState with messages := [Msg.human "hi"] }

/-- Python truthiness of `state.get(k)`: an absent key gives `None`
(falsy), a present `None` is falsy, a present string is truthy exactly
when non-empty. -/
def pyTruthy : Option (Option String) → Bool
  | some (some s) => !s.isEmpty
  | _ => false

/-- Rendering of `str(state.get(k, dflt))` as it appears inside an
f-string: an absent key falls back to the default, a present `None`
renders as "None", a present string renders itself. -/
def pyGetStr (field : Option (Option String)) (dflt : String) : String :=
  match field with
  | none => dflt
  | some none => "None"
  | some (some s) => s

/-- Conjunction `all([state.get('industry'), state.get('contract_type'),
state.get('location')])` used by both the gathering node and the router. -/
def requiredAllSet (st : ContractState) : Bool :=
  pyTruthy st.industry && pyTruthy st.contract_type && pyTruthy st.location

/-- The clarification prompt of `gather_contract_details` (source lines
60-67), exact text. -/
def clarificationPrompt : String :=
  "I\x27ll help you find contract opportunities. " ++
  "Could you please provide more details:\n" ++
  "1. What industry are you looking for contracts in? (e.g., IT, Construction, Marketing)\n" ++
  "2. What type of contract are you seeking? (e.g., Full-time, Part-time, Project-based)\n" ++
  "3. In which location are you looking for contracts?\n" ++
  "4. Do you have a specific budget range in mind?"

/-- The acknowledgment text of `gather_contract_details` (source line 71). -/
def ackText : String :=
  "Great! I\x27ll search for contract opportunities based on your details."

/-- The `input_gathering` node `gather_contract_details`: it returns a
state update containing only a `messages` entry, embedded here as the
list of messages of that update. -/
def gather_contract_details (st : ContractState) : List Msg :=
  if !requiredAllSet st then [Msg.ai clarificationPrompt]
  else [Msg.ai ackText]

/-- Application of a node return value `{"messages": [...]}` to the graph
state: the `add_messages` reducer appends, and channels the update does
not mention are unchanged. -/
def applyMessagesUpdate (st : ContractState) (new : List Msg) : ContractState :=
  { st with messages := st.messages ++ new }

/-- The conditional router `route_to_search` (source lines 138-147):
if the message list is non-empty and its last element is a
`HumanMessage` and not all three required fields are truthy, route to
`input_gathering`; in every other case fall through to
`contract_search`. -/
def route_to_search (st : ContractState) : String :=
  match st.messages.getLast? with
  | some (Msg.human _) =>
      if !requiredAllSet st then "input_gathering" else "contract_search"
  | _ => "contract_search"

/-- Boolean reading of "the message list is non-empty and its last
message is user-authored". -/
def lastIsHuman (ms : List Msg) : Bool :=
  match ms.getLast? with
  | some (Msg.human _) => true
  | _ => false

/-- The search query f-string of `safe_search_contracts` (source lines
80-85), exact template. -/
def buildQuery (st : ContractState) : String :=
  "Latest " ++ pyGetStr st.contract_type "" ++ " contract opportunities " ++
  "in " ++ pyGetStr st.industry "" ++ " industry " ++
  "located in " ++ pyGetStr st.location "" ++ " " ++
  "with budget range " ++ pyGetStr st.budget_range "any"

/-- One raw record returned by the search tool; each of the three keys
may be absent. -/
structure RawResult where
  title : Option String
  url : Option String
  content : Option String
deriving DecidableEq

/-- One normalized search record (all three fields present). -/
structure SearchRecord where
  title : String
  url : String
  content : String
deriving DecidableEq

/-- Normalization of one raw record (source lines 94-98):
`result.get(key, default)` for each of the three keys. -/
def processResult (r : RawResult) : SearchRecord :=
  { title := r.title.getD "Untitled Contract Opportunity",
    url := r.url.getD "No URL available",
    content := r.content.getD "No description available" }

/-- The `try/except` body of `safe_search_contracts` (source lines
78-105): build the query, invoke the tool, normalize each record; any
exception from the tool is swallowed and yields the empty list. -/
def safe_search_contracts (st : ContractState)
    (tool : String → Except String (List RawResult)) : List SearchRecord :=
  match tool (buildQuery st) with
  | Except.error _ => []
  | Except.ok rs => rs.map processResult

/-- The snippet shown for one result (source line 123):
`result['content'][:200]` followed by the literal ellipsis, applied
unconditionally.  Python slices by code points, so the slice is
`List.take` on the character list. -/
def renderSnippet (c : String) : String :=
  String.mk (c.data.take 200) ++ "..."

/-- The part of one rendered entry before the snippet (index and the
title/url lines of source lines 121-123). -/
def entryLead (i : Nat) (r : SearchRecord) : String :=
  toString (i + 1) ++ ". " ++ r.title ++ "\n   URL: " ++ r.url ++
  "\n   Description: "

/-- One rendered entry of the numbered list (source lines 121-123), for
the 0-based enumeration index `i`. -/
def formatEntry (i : Nat) (r : SearchRecord) : String :=
  entryLead i r ++ renderSnippet r.content

/-- `results_text` (source lines 120-125): the entries for
`enumerate(search_results)` joined by a blank line. -/
def resultsTextOf (rs : List SearchRecord) : String :=
  String.intercalate "\n\n" (rs.enum.map fun p => formatEntry p.1 p.2)

/-- The apology message of `search_contracts` (source lines 114-117),
exact text. -/
def noResultsText : String :=
  "I\x27m sorry, but I couldn\x27t find any contract opportunities matching your criteria. " ++
  "Would you like to modify your search parameters?"

/-- The header of the results message (source line 128). -/
def foundHeader : String :=
  "I\x27ve found some contract opportunities matching your criteria:\n\n"

/-- The `contract_search` node `search_contracts` (source lines 107-131),
embedded as the `messages` update it returns. -/
def search_contracts (st : ContractState)
    (tool : String → Except String (List RawResult)) : List Msg :=
  let search_results := safe_search_contracts st tool
  if search_results.isEmpty then [Msg.ai noResultsText]
  else [Msg.ai (foundHeader ++ resultsTextOf search_results)]

/-- Entry text exactly as the spec describes an entry: its 1-based
ordinal, then title, URL and snippet.  Used as the specification side of
the rendering refinement. -/
def specEntry (k : Nat) (r : SearchRecord) : String :=
  toString k ++ ". " ++ r.title ++ "\n   URL: " ++ r.url ++
  "\n   Description: " ++ renderSnippet r.content

/-- Entries numbered consecutively from `k`, as the spec words them
("numbered 1..N" when started at 1). -/
def specNumberedEntries : Nat → List SearchRecord → List String
  | _, [] => []
  | k, r :: rs => specEntry k r :: specNumberedEntries (k + 1) rs

/-- Prefix test on character lists (the building block of Python
substring search). -/
def isPre : List Char → List Char → Bool
  | [], _ => true
  | _ :: _, [] => false
  | a :: as, b :: bs => a == b && isPre as bs

/-- First index at which `sep` occurs as a contiguous block of `s`
(Python `s.find(sep)` restricted to existence). -/
def firstOcc (sep s : List Char) : Option Nat :=
  (List.range (s.length + 1)).find? fun i => isPre sep (s.drop i)

/-- Python substring membership `t in s`. -/
def pyContains (s t : String) : Bool :=
  (firstOcc t.data s.data).isSome

/-- Python `s.split(sep)` for a non-empty separator, fuelled recursion
(each step removes at least one character, so `s.length + 1` units of
fuel suffice). -/
def pySplitF : Nat → List Char → List Char → List (List Char)
  | 0, _, s => [s]
  | fuel + 1, sep, s =>
    match firstOcc sep s with
    | none => [s]
    | some i => s.take i :: pySplitF fuel sep (s.drop (i + sep.length))

/-- Python `s.split(sep)`. -/
def pySplit (sep s : List Char) : List (List Char) :=
  pySplitF (s.length + 1) sep s

/-- Python `s.lower()`, character-wise (exact on ASCII input). -/
def pyLower (s : String) : String :=
  String.mk (s.data.map Char.toLower)

/-- Python `s.strip()` on the character list. -/
def pyStrip (s : List Char) : List Char :=
  ((s.dropWhile Char.isWhitespace).reverse.dropWhile Char.isWhitespace).reverse

/-- Python `s.strip()` on strings. -/
def pyStripS (s : String) : String :=
  String.mk (pyStrip s.data)

/-- Python `s.split(sep)[-1].strip()` as used by the extraction checks. -/
def splitLastStrip (s sep : String) : String :=
  String.mk (pyStrip ((pySplit sep.data s.data).getLastD s.data))

/-- The four best-effort field-extraction checks of `run_contract_finder`
(source lines 197-205).  Each check fires only when its own field is
Python-falsy and the lowercased input contains its keyword; the assigned
value is the original (not lowercased) input split on the keyword, last
piece, stripped. -/
def extractDetails (st : ContractState) (input : String) : ContractState :=
  let low := pyLower input
  { st with
    industry :=
      if !pyTruthy st.industry && pyContains low "industry" then
        some (some (splitLastStrip input "industry"))
      else st.industry,
    contract_type :=
      if !pyTruthy st.contract_type && pyContains low "contract type" then
        some (some (splitLastStrip input "contract type"))
      else st.contract_type,
    location :=
      if !pyTruthy st.location && (pyContains low "in" || pyContains low "location") then
        some (some (splitLastStrip input "location"))
      else st.location,
    budget_range :=
      if !pyTruthy st.budget_range && pyContains low "budget" then
        some (some (splitLastStrip input "budget"))
      else st.budget_range }

/-! Helper lemmas. -/

/-- Appending only preserves every scalar field of the state. -/
theorem specNumberedEntries_length (rs : List SearchRecord) :
    ∀ k, (specNumberedEntries k rs).length = rs.length := by
  induction rs with
  | nil => intro k; rfl
  | cons r rs ih => intro k; simp [specNumberedEntries, ih (k + 1)]

/-- The enumeration-based rendering of the source equals the
consecutively numbered entries the spec describes, with numbering one
above the starting enumeration index. -/
theorem enumFrom_formatEntry (rs : List SearchRecord) :
    ∀ n, ((List.enumFrom n rs).map fun p => formatEntry p.1 p.2) =
      specNumberedEntries (n + 1) rs := by
  induction rs with
  | nil => intro n; rfl
  | cons r rs ih =>
      intro n
      simp only [List.enumFrom, List.map_cons, ih (n + 1)]
      rfl

/-- Character-wise mapping preserves the prefix relation on character
lists. -/
theorem isPre_map (f : Char → Char) :
    ∀ l₁ l₂ : List Char, isPre l₁ l₂ = true →
      isPre (l₁.map f) (l₂.map f) = true := by
  intro l₁
  induction l₁ with
  | nil => intro l₂ _; rfl
  | cons a as ih =>
      intro l₂ h
      cases l₂ with
      | nil => exact absurd h (by simp [isPre])
      | cons b bs =>
          simp only [isPre, Bool.and_eq_true, beq_iff_eq] at h
          obtain ⟨hab, hrest⟩ := h
          subst hab
          simp only [List.map_cons, isPre, Bool.and_eq_true, beq_iff_eq]
          simpa using ih bs hrest

/-- If a separator occurs in a character list, its image occurs in the
image of the list under a character-wise map. -/
theorem firstOcc_isSome_map (f : Char → Char) (sep s : List Char)
    (h : (firstOcc sep s).isSome = true) :
    (firstOcc (sep.map f) (s.map f)).isSome = true := by
  simp only [firstOcc, List.find?_isSome, List.mem_range] at h ⊢
  obtain ⟨i, hi, hp⟩ := h
  refine ⟨i, by simpa [List.length_map] using hi, ?_⟩
  have hmapped := isPre_map f sep (s.drop i) hp
  rwa [List.map_drop] at hmapped

/-- When the separator does not occur, Python split returns the whole
string as the single piece. -/
theorem pySplit_of_no_occ (sep s : List Char) (h : firstOcc sep s = none) :
    pySplit sep s = [s] := by
  simp [pySplit, pySplitF, h]

/-- If the lowercased input does not contain "location" then the raw
input does not contain it either, because lowering is character-wise
and fixes the all-lowercase separator. -/
theorem firstOcc_location_none (input : String)
    (h : pyContains (pyLower input) "location" = false) :
    firstOcc "location".data input.data = none := by
  cases hfo : firstOcc "location".data input.data with
  | none => rfl
  | some i =>
      exfalso
      have h1 : (firstOcc "location".data input.data).isSome = true := by
        rw [hfo]; rfl
      have h2 := firstOcc_isSome_map Char.toLower "location".data input.data h1
      have hsep : ("location".data.map Char.toLower) = "location".data := by decide
      rw [hsep] at h2
      have hlow : (pyLower input).data = input.data.map Char.toLower := rfl
      rw [pyContains, hlow, h2] at h
      exact Bool.noConfusion h

/-! Claim theorems. -/

/-- Claim C3: whenever at least one of the three required fields is
Python-falsy the gathering node returns exactly the fixed clarification
prompt (which lists all four requested pieces of information); when all
three are truthy it returns exactly the fixed acknowledgment; and
applying its returned update never changes any scalar field. -/
theorem gather_contract_details_spec (st : ContractState) :
    (¬(pyTruthy st.industry = true ∧ pyTruthy st.contract_type = true ∧
        pyTruthy st.location = true) →
      gather_contract_details st = [Msg.ai clarificationPrompt]) ∧
    ((pyTruthy st.industry = true ∧ pyTruthy st.contract_type = true ∧
        pyTruthy st.location = true) →
      gather_contract_details st = [Msg.ai ackText]) ∧
    (applyMessagesUpdate st (gather_contract_details st)).industry = st.industry ∧
    (applyMessagesUpdate st (gather_contract_details st)).contract_type = st.contract_type ∧
    (applyMessagesUpdate st (gather_contract_details st)).location = st.location ∧
    (applyMessagesUpdate st (gather_contract_details st)).budget_range = st.budget_range := by
  have hiff : requiredAllSet st = true ↔
      (pyTruthy st.industry = true ∧ pyTruthy st.contract_type = true ∧
        pyTruthy st.location = true) := by
    simp [requiredAllSet, Bool.and_eq_true, and_assoc]
  refine ⟨?_, ?_, rfl, rfl, rfl, rfl⟩
  · intro h
    have hf : requiredAllSet st = false := by
      cases hr : requiredAllSet st
      · rfl
      · exact absurd (hiff.mp hr) h
    simp [gather_contract_details, hf]
  · intro h
    simp [gather_contract_details, hiff.mpr h]

/-- Witness for claim C3 at two concrete states: the fresh initial
state gets the clarification prompt, a fully supplied state gets the
acknowledgment. -/
theorem gather_contract_details_spec_inst :
    gather_contract_details initialState = [Msg.ai clarificationPrompt] ∧
    gather_contract_details exFull = [Msg.ai ackText] :=
  ⟨(gather_contract_details_spec initialState).1 (by decide),
   (gather_contract_details_spec exFull).2.1 (by decide)⟩

/-- Claim C10: a required field holding the empty string behaves like an
unset field for both the gathering node (clarification prompt) and the
router after a user-authored message (route to input_gathering), since
both test Python truthiness. -/
theorem empty_string_treated_as_unset (st : ContractState)
    (h : st.industry = some (some "") ∨ st.contract_type = some (some "") ∨
      st.location = some (some "")) :
    gather_contract_details st = [Msg.ai clarificationPrompt] ∧
    (∀ c, st.messages.getLast? = some (Msg.human c) →
      route_to_search st = "input_gathering") := by
  have hempty : pyTruthy (some (some "")) = false := rfl
  have hfalse : requiredAllSet st = false := by
    rcases h with h | h | h <;> simp [requiredAllSet, h, hempty]
  constructor
  · simp [gather_contract_details, hfalse]
  · intro c hc
    simp [route_to_search, hc, hfalse]

/-- Witness for claim C10: a state whose industry is the empty string,
with a user message last, gets the clarification prompt and routes back
to gathering. -/
theorem empty_string_treated_as_unset_inst :
    gather_contract_details exEmptyIndustry = [Msg.ai clarificationPrompt] ∧
    route_to_search exEmptyIndustry = "input_gathering" := by
  have h := empty_string_treated_as_unset exEmptyIndustry (Or.inl rfl)
  exact ⟨h.1, h.2 "hello" rfl⟩

/-- Claim C1: the router selects input_gathering exactly when the
message list is non-empty, its last message is user-authored, and not
all three required fields are truthy; in every other case it selects
contract_search (and those are its only two outputs). -/
theorem route_to_search_gathering_iff (st : ContractState) :
    (route_to_search st = "input_gathering" ↔
      (st.messages ≠ [] ∧ lastIsHuman st.messages = true ∧
        requiredAllSet st = false)) ∧
    (route_to_search st = "input_gathering" ∨
      route_to_search st = "contract_search") := by
  cases hlast : st.messages.getLast? with
  | none =>
      have hnil : st.messages = [] := List.getLast?_eq_none_iff.mp hlast
      constructor
      · simp [route_to_search, hlast, hnil]
      · simp [route_to_search, hlast]
  | some m =>
      have hnonnil : st.messages ≠ [] := by
        intro h0
        rw [h0] at hlast
        simp at hlast
      cases m with
      | ai c =>
          constructor
          · simp [route_to_search, hlast, lastIsHuman]
          · simp [route_to_search, hlast]
      | human c =>
          cases hr : requiredAllSet st with
          | false =>
              constructor
              · simp [route_to_search, hlast, lastIsHuman, hr, hnonnil]
              · simp [route_to_search, hlast, hr]
          | true =>
              constructor
              · simp [route_to_search, hlast, lastIsHuman, hr]
              · simp [route_to_search, hlast, hr]

/-- Witness for claim C1: in the fresh state after one user message the
router selects input_gathering. -/
theorem route_to_search_gathering_iff_inst :
    route_to_search exOneUserMsg = "input_gathering" :=
  (route_to_search_gathering_iff exOneUserMsg).1.mpr ⟨by decide, rfl, rfl⟩

/-- Claim C2 counterexample: with industry "IT", contract type
"Full-time", location "Austin" and budget_range holding `None` (the
value the interactive loop initialises it to), the built query ends in
"budget range None" — Python `str(None)` — and is not the string the
claim states, because `state.get(k, default)` only falls back to the
default when the key is absent, never when it is present holding
`None`. -/
theorem buildQuery_budget_none_counterexample :
    buildQuery exFull =
      "Latest Full-time contract opportunities in IT industry located in Austin with budget range None" ∧
    buildQuery exFull ≠
      "Latest Full-time contract opportunities in IT industry located in Austin with budget range any" :=
  ⟨rfl, by decide⟩

/-- Claim C2 amended: the substitution defaults apply only to keys that
are absent from the state mapping: with the budget key absent the query
is exactly the claimed string, and with all four keys absent the three
required fields render as the empty string and the budget as "any" in
the fixed template. -/
theorem buildQuery_absent_key_defaults :
    buildQuery exFullNoBudgetKey =
      "Latest Full-time contract opportunities in IT industry located in Austin with budget range any" ∧
    buildQuery exAllAbsent =
      "Latest  contract opportunities in  industry located in  with budget range any" :=
  ⟨rfl, rfl⟩

/-- Claim C4: any exception from the search tool is swallowed: the
search node emits exactly the fixed apology message and behaves
identically to a call that returned zero results. -/
theorem search_error_swallowed (st : ContractState)
    (tool : String → Except String (List RawResult)) (e : String)
    (h : tool (buildQuery st) = Except.error e) :
    search_contracts st tool = [Msg.ai noResultsText] ∧
    search_contracts st tool = search_contracts st (fun _ => Except.ok []) := by
  have hsafe : safe_search_contracts st tool = [] := by
    simp [safe_search_contracts, h]
  have hsafe2 : safe_search_contracts st (fun _ => Except.ok ([] : List RawResult)) = [] :=
    rfl
  constructor
  · simp [search_contracts, hsafe]
  · simp [search_contracts, hsafe, hsafe2]

/-- Witness for claim C4: a tool that raises on every query yields the
apology message. -/
theorem search_error_swallowed_inst :
    search_contracts initialState (fun _ => Except.error "timeout") =
      [Msg.ai noResultsText] :=
  (search_error_swallowed initialState (fun _ => Except.error "timeout")
    "timeout" rfl).1

/-- Claim C5: with zero raw results the search node returns exactly the
fixed apology message; with a non-empty raw result list it returns a
single assistant message made of the fixed header followed by the
entries numbered consecutively from 1, one entry per raw result (each
entry showing title, URL and the snippet, by definition of
`specEntry`). -/
theorem search_renders_numbered_list (st : ContractState)
    (tool : String → Except String (List RawResult)) (rs : List RawResult)
    (hok : tool (buildQuery st) = Except.ok rs) :
    (rs = [] → search_contracts st tool = [Msg.ai noResultsText]) ∧
    (rs ≠ [] →
      search_contracts st tool =
        [Msg.ai (foundHeader ++ String.intercalate "\n\n"
          (specNumberedEntries 1 (rs.map processResult)))] ∧
      (specNumberedEntries 1 (rs.map processResult)).length = rs.length) := by
  have hsafe : safe_search_contracts st tool = rs.map processResult := by
    simp [safe_search_contracts, hok]
  constructor
  · intro h
    subst h
    simp [search_contracts, hsafe]
  · intro h
    have hne : (rs.map processResult).isEmpty = false := by
      cases rs with
      | nil => exact absurd rfl h
      | cons a as => rfl
    have hrt : resultsTextOf (rs.map processResult) =
        String.intercalate "\n\n" (specNumberedEntries 1 (rs.map processResult)) := by
      have hent := enumFrom_formatEntry (rs.map processResult) 0
      simp only [resultsTextOf, List.enum]
      rw [hent]
    refine ⟨?_, by simp [specNumberedEntries_length]⟩
    simp [search_contracts, hsafe, hne, hrt]

/-- Witness for claim C5: one raw result with a missing title renders as
a one-entry numbered list. -/
theorem search_renders_numbered_list_inst :
    search_contracts initialState
        (fun _ => Except.ok [RawResult.mk none (some "u") (some "c")]) =
      [Msg.ai (foundHeader ++ String.intercalate "\n\n"
        (specNumberedEntries 1
          ([RawResult.mk none (some "u") (some "c")].map processResult)))] ∧
    (specNumberedEntries 1
      ([RawResult.mk none (some "u") (some "c")].map processResult)).length = 1 :=
  (search_renders_numbered_list initialState
    (fun _ => Except.ok [RawResult.mk none (some "u") (some "c")])
    [RawResult.mk none (some "u") (some "c")] rfl).2 (by decide)

/-- Claim C6: the displayed snippet of every rendered entry is the first
200 characters of the content followed by the literal ellipsis, the
truncation being applied unconditionally; for content of at most 200
characters the whole content is shown followed by the ellipsis. -/
theorem snippet_truncation_unconditional :
    (∀ i r, formatEntry i r = entryLead i r ++ renderSnippet r.content) ∧
    (∀ c : String, renderSnippet c = String.mk (c.data.take 200) ++ "...") ∧
    (∀ c : String, c.data.length ≤ 200 → renderSnippet c = c ++ "...") := by
  refine ⟨fun i r => rfl, fun c => rfl, fun c h => ?_⟩
  have htake : c.data.take 200 = c.data := List.take_of_length_le h
  rw [renderSnippet, htake]

/-- Witness for claim C6: a 13-character content string renders whole,
followed by the ellipsis. -/
theorem snippet_truncation_unconditional_inst :
    renderSnippet "short snippet" = "short snippet" ++ "..." :=
  snippet_truncation_unconditional.2.2 "short snippet" (by decide)

/-- Claim C7: normalization substitutes the documented default for each
absent key independently and leaves present keys' values unchanged. -/
theorem processResult_defaults_independent (r : RawResult) :
    (r.title = none → (processResult r).title = "Untitled Contract Opportunity") ∧
    (∀ t, r.title = some t → (processResult r).title = t) ∧
    (r.url = none → (processResult r).url = "No URL available") ∧
    (∀ u, r.url = some u → (processResult r).url = u) ∧
    (r.content = none → (processResult r).content = "No description available") ∧
    (∀ c, r.content = some c → (processResult r).content = c) := by
  refine ⟨fun h => ?_, fun t h => ?_, fun h => ?_, fun u h => ?_,
    fun h => ?_, fun c h => ?_⟩ <;> simp [processResult, h]

/-- Witness for claim C7: a record missing title and content keeps its
url and receives the title default. -/
theorem processResult_defaults_independent_inst :
    (processResult (RawResult.mk none (some "u") none)).title =
      "Untitled Contract Opportunity" ∧
    (processResult (RawResult.mk none (some "u") none)).url = "u" :=
  ⟨(processResult_defaults_independent (RawResult.mk none (some "u") none)).1 rfl,
   (processResult_defaults_independent (RawResult.mk none (some "u") none)).2.2.2.1
     "u" rfl⟩

/-- Claim C8 counterexample: on input "budget" the budget check fires
(the state held `None`) and assigns the empty string, because the input
ends with the keyword and `split("budget")[-1].strip()` is empty; the
empty string is Python-falsy, so the next turn's input "budget 100"
passes the guard again and changes the field to "100". -/
theorem extraction_overwrite_counterexample :
    initialState.budget_range = some none ∧
    (extractDetails initialState "budget").budget_range = some (some "") ∧
    (extractDetails (extractDetails initialState "budget")
      "budget 100").budget_range = some (some "100") ∧
    (extractDetails (extractDetails initialState "budget")
        "budget 100").budget_range ≠
      (extractDetails initialState "budget").budget_range :=
  ⟨rfl, rfl, rfl, by decide⟩

/-- Claim C8 amended: once a field holds a non-empty string
(Python-truthy), no later extraction check changes it, whatever the
input; a keyword match that assigned the empty string leaves the field
falsy, and a later turn containing the keyword may reassign it. -/
theorem extraction_preserves_nonempty_fields (st : ContractState) (input : String) :
    (pyTruthy st.industry = true →
      (extractDetails st input).industry = st.industry) ∧
    (pyTruthy st.contract_type = true →
      (extractDetails st input).contract_type = st.contract_type) ∧
    (pyTruthy st.location = true →
      (extractDetails st input).location = st.location) ∧
    (pyTruthy st.budget_range = true →
      (extractDetails st input).budget_range = st.budget_range) := by
  refine ⟨fun h => ?_, fun h => ?_, fun h => ?_, fun h => ?_⟩ <;>
    simp [extractDetails, h]

/-- Witness for claim C8 (amended): an industry already set to "IT"
survives a later input containing the keyword "industry". -/
theorem extraction_preserves_nonempty_fields_inst :
    (extractDetails exFull "industry Finance").industry = some (some "IT") :=
  (extraction_preserves_nonempty_fields exFull "industry Finance").1 rfl

/-- Claim C9: when the location field is falsy and the lowercased input
contains "in" but not "location", the location check fires and, since
splitting on the absent separator returns the whole input as the single
piece, assigns the entire input stripped of surrounding whitespace. -/
theorem location_extraction_whole_input (st : ContractState) (input : String)
    (hloc : pyTruthy st.location = false)
    (hin : pyContains (pyLower input) "in" = true)
    (hnot : pyContains (pyLower input) "location" = false) :
    (extractDetails st input).location = some (some (pyStripS input)) := by
  have hocc : firstOcc "location".data input.data = none :=
    firstOcc_location_none input hnot
  have hsplit : splitLastStrip input "location" = pyStripS input := by
    rw [splitLastStrip, pySplit_of_no_occ "location".data input.data hocc]
    rfl
  simp [extractDetails, hloc, hin, hsplit]

/-- Witness for claim C9: the input "I work in Austin" contains "in"
but not "location", so the whole input becomes the location. -/
theorem location_extraction_whole_input_inst :
    (extractDetails initialState "I work in Austin").location =
      some (some "I work in Austin") := by
  have h := location_extraction_whole_input initialState "I work in Austin"
    rfl (by decide) (by decide)
  have hstrip : pyStripS "I work in Austin" = "I work in Austin" := rfl
  rw [hstrip] at h
  exact h
